import Mathlib

/-!
Shallow embedding of the schema-and-route synthesis engine of
`swagger-to-localdb-cli` (TypeScript).  The definitions below are direct
translations of the corresponding functions in
`src/generator/type-generator.ts`, `src/generator/api-generator.ts` and
`src/parser/swagger-parser.ts` (the parser source is concatenated into
`src/types/cli-types.ts` in this snapshot).  JavaScript strings are modelled
as Lean `String` (ASCII case mapping), JS objects/records as ordered
association lists, absent (`undefined`/`null`) fields as `Option`, and JS
truthiness is made explicit at every use site.
-/

namespace SwaggerToLocalDb

/-- ASCII model of JavaScript `String.prototype.toLowerCase` (the inputs the
tool handles — tags, verbs, schema names — are ASCII).  `Char.toLower` in
core Lean is exactly the ASCII mapping. -/
def jsToLower (s : String) : String := String.mk (s.data.map Char.toLower)

/-- ASCII model of JavaScript `String.prototype.toUpperCase`. -/
def jsToUpper (s : String) : String := String.mk (s.data.map Char.toUpper)

/-- JavaScript regex word character `\w`, i.e. `[A-Za-z0-9_]`. -/
def isWordChar (c : Char) : Bool := c.isAlphanum || c == '_'

/-- Scanner for the regex replace `str.replace(/(?:^|[-_])(\w)/g, up)` at
positions after the start of the string: a `-` or `_` followed by a word
character is replaced by the upper-cased word character (the separator is
consumed); everything else is kept.  Matches are non-overlapping and found
left to right, exactly as JS `String.replace` with the `g` flag. -/
def pascalCore : List Char → List Char
  | [] => []
  | [c] => [c]
  | c :: d :: rest2 =>
    if c == '-' || c == '_' then
      if isWordChar d then Char.toUpper d :: pascalCore rest2
      else c :: pascalCore (d :: rest2)
    else c :: pascalCore (d :: rest2)

/-- Embedding of the private `toPascalCase` method, i.e.
`str.replace(/(?:^|[-_])(\w)/g, (_, c) => c.toUpperCase())`.  The method body
is textually identical in `TypeGenerator`, `ApiGenerator` and `DbGenerator`,
so this single definition embeds all three copies.  At position 0 the `^`
alternative applies when the first character is a word character; otherwise
the `[-_]\w` alternative is tried there too (handled by `pascalCore`). -/
def toPascalCase (s : String) : String :=
  match s.data with
  | [] => ""
  | c :: rest =>
    if isWordChar c then String.mk (Char.toUpper c :: pascalCore rest)
    else String.mk (pascalCore (c :: rest))

/-- Embedding of the private `toCamelCase` method of `ApiGenerator`:
Pascal-case the string, then lower-case its first character. -/
def toCamelCase (s : String) : String :=
  match (toPascalCase s).data with
  | [] => ""
  | c :: rest => String.mk (Char.toLower c :: rest)

/-- JS `o || dflt` for an optional string field: `undefined` and the empty
string are falsy. -/
def jsOrStr (o : Option String) (dflt : String) : String :=
  match o with
  | some s => if s = "" then dflt else s
  | none => dflt

/-- Truthiness of an optional string value (`undefined` and `""` are falsy). -/
def jsTruthyStr (o : Option String) : Bool :=
  match o with
  | some s => s ≠ ""
  | none => false

/-- Splitting a character list at every occurrence of a separator: the
semantics of JS `String.prototype.split` with a one-character separator
(`''.split(c)` gives `['']`, separators at the ends give empty segments). -/
def splitCharList (sep : Char) : List Char → List (List Char)
  | [] => [[]]
  | c :: rest =>
    match splitCharList sep rest with
    | [] => [[]]
    | seg :: segs =>
      if c = sep then [] :: seg :: segs else (c :: seg) :: segs

/-- JS `s.split(sep)` for a one-character separator.  (Equivalent to
`String.splitOn`, re-implemented by structural recursion so that concrete
instances evaluate inside the kernel.) -/
def jsSplit (sep : Char) (s : String) : List String :=
  (splitCharList sep s.data).map String.mk

/-- JS `s.startsWith(p)` (prefix test; equivalent to `String.startsWith`,
stated on the character lists so that concrete instances evaluate inside
the kernel). -/
def jsStartsWith (s p : String) : Bool := p.data.isPrefixOf s.data

/-- JS `s.endsWith(p)` (suffix test). -/
def jsEndsWith (s p : String) : Bool := p.data.isSuffixOf s.data

/-- Base-10 value of a digit list, most significant digit first. -/
def digitsVal (l : List Char) : Nat :=
  l.foldl (fun acc c => acc * 10 + (c.toNat - 48)) 0

/-- JS object property read `obj[key]` over the ordered association-list
model of a JS object (each key occurs once; first match wins). -/
def jsGet {α : Type} (l : List (String × α)) (k : String) : Option α :=
  (l.find? (fun p => p.1 = k)).map (·.2)

/-- Literal values occurring in a schema (`enum` entries, examples).  The
tool only distinguishes strings from everything else when rendering. -/
inductive JsLit where
  | str (s : String) : JsLit
  | num (n : Int) : JsLit
  | bool (b : Bool) : JsLit
deriving DecidableEq, Repr

/-- Rendering of one enum literal by the generator:
``typeof value === 'string' ? `'${value}'` : value`` (non-strings are
coerced to their decimal text by the template literal). -/
def JsLit.render : JsLit → String
  | .str s => "'" ++ s ++ "'"
  | .num n => toString n
  | .bool b => if b then "true" else "false"

/-- Parsed schema node, mirroring the `Schema` interface of
`src/types/cli-types.ts`: `type` is always present after parsing, all other
fields are optional; `properties` is an ordered name→schema record. -/
inductive Schema : Type where
  | mk : (type : String) → (format : Option String) →
      (properties : Option (List (String × Schema))) →
      (items : Option Schema) →
      (required : Option (List String)) →
      (enumVals : Option (List JsLit)) →
      (exampleVal : Option JsLit) →
      (description : Option String) →
      (ref : Option String) → Schema

def Schema.type : Schema → String
  | .mk t _ _ _ _ _ _ _ _ => t

def Schema.format : Schema → Option String
  | .mk _ f _ _ _ _ _ _ _ => f

def Schema.properties : Schema → Option (List (String × Schema))
  | .mk _ _ p _ _ _ _ _ _ => p

def Schema.items : Schema → Option Schema
  | .mk _ _ _ i _ _ _ _ _ => i

def Schema.required : Schema → Option (List String)
  | .mk _ _ _ _ r _ _ _ _ => r

def Schema.enumVals : Schema → Option (List JsLit)
  | .mk _ _ _ _ _ e _ _ _ => e

def Schema.exampleVal : Schema → Option JsLit
  | .mk _ _ _ _ _ _ e _ _ => e

def Schema.description : Schema → Option String
  | .mk _ _ _ _ _ _ _ d _ => d

def Schema.ref : Schema → Option String
  | .mk _ _ _ _ _ _ _ _ r => r

/-- Builder for a plain primitive schema node (test inputs). -/
def primSchema (t : String) : Schema :=
  .mk t none none none none none none none none

/-- Builder for a reference schema node (test inputs). -/
def refSchema (r : String) : Schema :=
  .mk "object" none none none none none none none (some r)

/-- Builder for an object schema node with properties and a required list
(test inputs). -/
def objSchema (props : List (String × Schema)) (req : Option (List String)) :
    Schema :=
  .mk "object" none (some props) none req none none none none

/-- Embedding of `TypeGenerator.mapSwaggerTypeToTypeScript`. -/
def mapSwaggerTypeToTypeScript (swaggerType : String) : String :=
  if swaggerType = "integer" then "number"
  else if swaggerType = "number" then "number"
  else if swaggerType = "string" then "string"
  else if swaggerType = "boolean" then "boolean"
  else if swaggerType = "array" then "any[]"
  else if swaggerType = "object" then "Record<string, any>"
  else "any"

/-- Last `/`-separated segment of a `$ref` string with the generator's
fallback: `schema.$ref.split('/').pop() || 'unknown'` (the empty string is
falsy, hence replaced by `unknown`). -/
def refTargetName (r : String) : String :=
  match (jsSplit '/' r).getLast? with
  | some s => if s = "" then "unknown" else s
  | none => "unknown"

/-- Check `schema.required?.includes(propName) || false` from the object
branches of the generator. -/
def requiredIncludes (req : Option (List String)) (propName : String) : Bool :=
  match req with
  | some l => l.contains propName
  | none => false

mutual

/-- Embedding of `TypeGenerator.generateTypeFromSchema`: the Type Resolver
for nested/anonymous positions.  Branches in source order: truthy `$ref`,
`array` with items, truthy `enum`, `object` with truthy properties, fallback
to the primitive mapping.  References are rendered as the Pascal-cased last
segment of the `$ref` string and are never expanded.  The enum/object/\
fallback continuation is written out in both arms of the `items` match,
mirroring the if-chain of the source. -/
def generateTypeFromSchema : Schema → String
  | .mk ty _fmt props items req enumVals _ex _desc ref =>
    if jsTruthyStr ref then toPascalCase (refTargetName (ref.getD ""))
    else
      match items with
      | some it =>
        if ty = "array" then generateTypeFromSchema it ++ "[]"
        else
          match enumVals with
          | some vs => String.intercalate " | " (vs.map JsLit.render)
          | none =>
            match props with
            | some ps =>
              if ty = "object" then
                "\x7b " ++ String.intercalate "; " (inlinePropPieces req ps) ++
                  " \x7d"
              else mapSwaggerTypeToTypeScript ty
            | none => mapSwaggerTypeToTypeScript ty
      | none =>
        match enumVals with
        | some vs => String.intercalate " | " (vs.map JsLit.render)
        | none =>
          match props with
          | some ps =>
            if ty = "object" then
              "\x7b " ++ String.intercalate "; " (inlinePropPieces req ps) ++
                " \x7d"
            else mapSwaggerTypeToTypeScript ty
          | none => mapSwaggerTypeToTypeScript ty
termination_by structural s => s

/-- Property pieces of the inline object branch of
`generateTypeFromSchema`: each property contributes
`${propName}${optional}: ${propType}` with `optional` equal to `?` unless
the name occurs in the node's `required` list; the pieces are joined with
`"; "`. -/
def inlinePropPieces : Option (List String) → List (String × Schema) →
    List String
  | _, [] => []
  | req, (propName, propSchema) :: rest =>
    (propName ++ (if requiredIncludes req propName then "" else "?") ++ ": " ++
      generateTypeFromSchema propSchema) :: inlinePropPieces req rest
termination_by structural _ l => l

end

/-- Property line emitted by the object branch of
`TypeGenerator.generateInterface` for one property:
`${comment}  ${propName}${optional}: ${propType};\n`, where `comment` is a
doc line when the property schema carries a truthy description. -/
def interfacePropLine (req : Option (List String)) (propName : String)
    (propSchema : Schema) : String :=
  let isRequired := requiredIncludes req propName
  let propType := generateTypeFromSchema propSchema
  let optional := if isRequired then "" else "?"
  let comment :=
    if jsTruthyStr propSchema.description then
      "  /** " ++ (propSchema.description.getD "") ++ " */\n"
    else ""
  comment ++ "  " ++ propName ++ optional ++ ": " ++ propType ++ ";\n"

/-- Embedding of `TypeGenerator.generateInterface` (top-level named
definitions).  Branches in source order: truthy `$ref` (alias to the
Pascal-cased ref target, falling back to the definition's own name),
`array` with items, truthy `enum`, object (`type === 'object'` or truthy
properties), primitive fallback. -/
def generateInterface (name : String) (schema : Schema) : String :=
  let interfaceName := toPascalCase name
  match schema with
  | .mk ty _fmt props items req enumVals _ex _desc ref =>
    if jsTruthyStr ref then
      let refName :=
        match (jsSplit '/' (ref.getD "")).getLast? with
        | some s => if s = "" then name else s
        | none => name
      "export type " ++ interfaceName ++ " = " ++ toPascalCase refName ++ ";"
    else if ty = "array" ∧ items.isSome then
      "export type " ++ interfaceName ++ " = " ++
        generateTypeFromSchema (items.getD (primSchema "any")) ++ "[];"
    else if enumVals.isSome then
      "export type " ++ interfaceName ++ " = " ++
        String.intercalate " | " ((enumVals.getD []).map JsLit.render) ++ ";"
    else if ty = "object" ∨ props.isSome then
      let body := String.join ((props.getD []).map
        (fun p => interfacePropLine req p.1 p.2))
      "export interface " ++ interfaceName ++ " \x7b\n" ++ body ++ "\x7d"
    else
      "export type " ++ interfaceName ++ " = " ++
        mapSwaggerTypeToTypeScript ty ++ ";"

/-- Parameter of an operation, mirroring the `Parameter` interface
(`in` is rendered `loc` because `in` is a Lean keyword). -/
structure Parameter where
  name : String
  loc : String
  required : Bool
  schema : Schema
  description : Option String

/-- Request body, mirroring the `RequestBody` interface; the `content`
record maps a media type to its schema (the `MediaType` wrapper object is
inlined to its single `schema` field). -/
structure RequestBody where
  required : Bool
  content : List (String × Schema)

/-- Response, mirroring the `Response` interface. -/
structure Response where
  statusCode : String
  description : String
  content : Option (List (String × Schema))

/-- Parsed operation, mirroring the `SwaggerEndpoint` interface: after
parsing, `operationId` is always a (possibly synthesized) string and
`parameters`/`responses` default to empty lists. -/
structure SwaggerEndpoint where
  path : String
  method : String
  operationId : String
  summary : Option String
  description : Option String
  parameters : List Parameter
  requestBody : Option RequestBody
  responses : List Response
  tags : Option (List String)

/-- Parsed document, mirroring the `ParsedSwagger` interface (the parts the
generators read). -/
structure ParsedSwagger where
  title : String
  version : String
  descriptionInfo : Option String
  endpoints : List SwaggerEndpoint
  schemas : List (String × Schema)

/-- Embedding of `ApiGenerator.generateFunctionName`: a truthy (non-empty)
`operationId` is camel-cased; otherwise the name is synthesized from the
lower-cased verb and the Pascal-cased last path segment that is non-empty
and not a `{param}` placeholder, with fallback `resource`. -/
def generateFunctionName (endpoint : SwaggerEndpoint) : String :=
  if endpoint.operationId ≠ "" then toCamelCase endpoint.operationId
  else
    let method := jsToLower endpoint.method
    let pathParts := (jsSplit '/' endpoint.path).filter
      (fun part => part ≠ "" && !(jsStartsWith part "\x7b"))
    let resourceName :=
      match pathParts.getLast? with
      | some p => if p = "" then "resource" else p
      | none => "resource"
    method ++ toPascalCase resourceName

/-- Embedding of `ApiGenerator.generateDbFunctionName`: switch on the
lower-cased verb; for `get` the database operation is `findById` when the
path contains a `{` character anywhere (`endpoint.path.includes('{')`),
`findAll` otherwise. -/
def generateDbFunctionName (endpoint : SwaggerEndpoint) : String :=
  let method := jsToLower endpoint.method
  if method = "get" then
    if endpoint.path.data.contains (Char.ofNat 123) then "findById"
    else "findAll"
  else if method = "post" then "create"
  else if method = "put" then "update"
  else if method = "patch" then "update"
  else if method = "delete" then "delete"
  else "query"

/-- Decimal value read by `parseInt(s, 10)` from a string that starts with
a digit: the value of the maximal digit prefix.  The generator only calls
`parseInt` on status-code strings already known to start with `'2'` or
`'4'`, so the `NaN`/sign/whitespace cases of `parseInt` cannot arise; the
digit-free case is mapped to `0` here. -/
def jsParseIntDec (s : String) : Int :=
  match s.data.takeWhile Char.isDigit with
  | [] => 0
  | ds => (digitsVal ds : Int)

/-- Embedding of `ApiGenerator.getSuccessStatusCode`: the first response
whose status code starts with `'2'`, parsed as a number; otherwise a
verb-dependent default (`post` → 201, `delete` → 204, else 200). -/
def getSuccessStatusCode (endpoint : SwaggerEndpoint) : Int :=
  match endpoint.responses.find? (fun r => jsStartsWith r.statusCode "2") with
  | some successResponse => jsParseIntDec successResponse.statusCode
  | none =>
    let m := jsToLower endpoint.method
    if m = "post" then 201
    else if m = "delete" then 204
    else 200

/-- Embedding of `ApiGenerator.getSuccessStatusText`: fixed lookup on the
chosen numeric success code. -/
def getSuccessStatusText (endpoint : SwaggerEndpoint) : String :=
  let statusCode := getSuccessStatusCode endpoint
  if statusCode = 200 then "OK"
  else if statusCode = 201 then "Created"
  else if statusCode = 204 then "No Content"
  else "Success"

/-- Embedding of `ApiGenerator.getErrorStatusCode`: the first response whose
status code starts with `'4'`, parsed as a number, else 400. -/
def getErrorStatusCode (endpoint : SwaggerEndpoint) : Int :=
  match endpoint.responses.find? (fun r => jsStartsWith r.statusCode "4") with
  | some errorResponse => jsParseIntDec errorResponse.statusCode
  | none => 400

/-- First group tag of an endpoint with the generator's fallback:
`endpoint.tags?.[0] || 'default'` — an absent tag list, an empty tag list
and an empty first tag all fall back to the fixed group `default`. -/
def firstTagOf (endpoint : SwaggerEndpoint) : String :=
  match endpoint.tags with
  | some (t :: _) => if t = "" then "default" else t
  | _ => "default"

/-- Storage-group key of one endpoint:
`(endpoint.tags?.[0] || 'default').toLowerCase()`. -/
def controllerKeyOf (endpoint : SwaggerEndpoint) : String :=
  jsToLower (firstTagOf endpoint)

/-- One step of the grouping loop: append the endpoint to the entry of its
key in the ordered record of groups, creating the entry at the end when the
key is new (JS object insertion-order semantics). -/
def addToGroup (groups : List (String × List SwaggerEndpoint)) (key : String)
    (e : SwaggerEndpoint) : List (String × List SwaggerEndpoint) :=
  match groups with
  | [] => [(key, [e])]
  | (k, es) :: rest =>
    if k = key then (k, es ++ [e]) :: rest
    else (k, es) :: addToGroup rest key e

/-- Embedding of `groupEndpointsByController` (the method body is textually
identical in `ApiGenerator` and `DbGenerator`, so this single definition
embeds both copies): partition the endpoint list by storage-group key. -/
def groupEndpointsByController (endpoints : List SwaggerEndpoint) :
    List (String × List SwaggerEndpoint) :=
  endpoints.foldl (fun groups e => addToGroup groups (controllerKeyOf e) e) []

/-- Embedding of `DbGenerator.getUniqueControllers`: insertion-ordered set
of lower-cased first tags (JS `Set` semantics). -/
def getUniqueControllers (parsedSwagger : ParsedSwagger) : List String :=
  parsedSwagger.endpoints.foldl
    (fun acc e =>
      let t := controllerKeyOf e
      if acc.contains t then acc else acc ++ [t])
    []

/-- Raw (pre-normalization) schema node of the validated document, as the
parser reads it: every field may be absent. -/
inductive RawSchema : Type where
  | mk : (type : Option String) → (format : Option String) →
      (properties : Option (List (String × RawSchema))) →
      (items : Option RawSchema) →
      (required : Option (List String)) →
      (enumVals : Option (List JsLit)) →
      (exampleVal : Option JsLit) →
      (description : Option String) →
      (ref : Option String) → RawSchema

mutual

/-- Embedding of `SwaggerSpecParser.parseSchema` on a present schema object:
`type` defaults to `object` (truthiness of `schema.type`), `properties` and
`items` are parsed recursively when present, and `required`, `enum`,
`format`, `example`, `description` and `$ref` are copied through. -/
def parseSchemaCore : RawSchema → Schema
  | .mk ty fmt props items req enumVals ex desc ref =>
    Schema.mk (jsOrStr ty "object") fmt
      (match props with
       | some l => some (parseSchemaProps l)
       | none => none)
      (match items with
       | some it => some (parseSchemaCore it)
       | none => none)
      req enumVals ex desc ref
termination_by structural s => s

/-- Recursive parsing of the `properties` record inside `parseSchema`. -/
def parseSchemaProps : List (String × RawSchema) → List (String × Schema)
  | [] => []
  | (n, s) :: rest => (n, parseSchemaCore s) :: parseSchemaProps rest
termination_by structural l => l

end

/-- Embedding of `SwaggerSpecParser.parseSchema` including its null guard:
an absent schema parses to `{ type: 'any' }`. -/
def parseSchema : Option RawSchema → Schema
  | none => Schema.mk "any" none none none none none none none none
  | some s => parseSchemaCore s

/-- Raw parameter object as read by `parseParameter`. -/
structure RawParameter where
  name : String
  loc : String
  required : Option Bool
  schema : Option RawSchema
  description : Option String

/-- Embedding of `SwaggerSpecParser.parseParameter`:
`required: param.required || false` and the schema parsed through
`parseSchema`. -/
def parseParameter (param : RawParameter) : Parameter :=
  { name := param.name
    loc := param.loc
    required := param.required.getD false
    schema := parseSchema param.schema
    description := param.description }

/-- Raw request body object as read by `parseRequestBody`. -/
structure RawRequestBody where
  required : Option Bool
  content : Option (List (String × Option RawSchema))

/-- Embedding of `SwaggerSpecParser.parseRequestBody`. -/
def parseRequestBody (requestBody : RawRequestBody) : RequestBody :=
  { required := requestBody.required.getD false
    content :=
      match requestBody.content with
      | some l => l.map (fun p => (p.1, parseSchema p.2))
      | none => [] }

/-- Raw response object as read by `parseResponse`. -/
structure RawResponse where
  description : Option String
  content : Option (List (String × Option RawSchema))

/-- Embedding of `SwaggerSpecParser.parseResponse`: description defaults to
the empty string; a content record is kept only when it has at least one
media type. -/
def parseResponse (statusCode : String) (response : RawResponse) : Response :=
  let content :=
    match response.content with
    | some l => l.map (fun p => (p.1, parseSchema p.2))
    | none => []
  { statusCode := statusCode
    description := response.description.getD ""
    content := if content.length > 0 then some content else none }

/-- Raw operation object as read by `parseOperation`. -/
structure RawOperation where
  operationId : Option String
  summary : Option String
  description : Option String
  parameters : Option (List RawParameter)
  requestBody : Option RawRequestBody
  responses : Option (List (String × RawResponse))
  tags : Option (List String)

/-- Identifier synthesis of `parseOperation`:
`${method}${path.replace(/[^a-zA-Z0-9]/g, '')}`. -/
def synthOperationId (method path : String) : String :=
  method ++ String.mk (path.data.filter Char.isAlphanum)

/-- Embedding of `SwaggerSpecParser.parseOperation`: the verb is
upper-cased, a falsy (absent or empty) `operationId` is replaced by the
synthesized identifier, missing `parameters`/`responses` become empty
lists, and `tags` is copied through. -/
def parseOperation (path method : String) (operation : RawOperation) :
    SwaggerEndpoint :=
  { path := path
    method := jsToUpper method
    operationId :=
      match operation.operationId with
      | some oid => if oid = "" then synthOperationId method path else oid
      | none => synthOperationId method path
    summary := operation.summary
    description := operation.description
    parameters :=
      match operation.parameters with
      | some ps => ps.map parseParameter
      | none => []
    requestBody := operation.requestBody.map parseRequestBody
    responses :=
      match operation.responses with
      | some rs => rs.map (fun p => parseResponse p.1 p.2)
      | none => []
    tags := operation.tags }

/-- Fixed verb iteration order of `SwaggerSpecParser.parse`:
`['get', 'post', 'put', 'patch', 'delete', 'options', 'head']`. -/
def httpMethods : List String :=
  ["get", "post", "put", "patch", "delete", "options", "head"]

/-- Raw `paths` object of the document: path → (possibly null) path item,
where a path item maps each declared verb to its raw operation, in
declaration order. -/
def RawPaths : Type := List (String × Option (List (String × RawOperation)))

/-- Embedding of the endpoint-extraction loop of `SwaggerSpecParser.parse`:
for each path entry in declaration order, for each of the seven recognized
verbs in the fixed order of `httpMethods`, a present operation is parsed
and pushed onto the endpoint list.  A null path item is skipped. -/
def parseEndpoints (paths : RawPaths) : List SwaggerEndpoint :=
  paths.foldl
    (fun acc p =>
      match p.2 with
      | none => acc
      | some pathItem =>
        httpMethods.foldl
          (fun acc2 method =>
            match jsGet pathItem method with
            | some operation => acc2 ++ [parseOperation p.1 method operation]
            | none => acc2)
          acc)
    []

/-- Opaque seed-record payloads (`any[]` entries of the seed file) modelled
as JSON values. -/
inductive Json : Type where
  | null : Json
  | bool (b : Bool) : Json
  | num (n : Int) : Json
  | str (s : String) : Json
  | arr (elems : List Json) : Json
  | obj (fields : List (String × Json)) : Json

/-- JSON string quoting as performed by `JSON.stringify`. -/
def jsonQuote (s : String) : String :=
  "\"" ++
    String.join (s.data.map (fun c =>
      if c = '"' then "\\\""
      else if c = '\\' then "\\\\"
      else if c = '\n' then "\\n"
      else if c = '\t' then "\\t"
      else if c = '\r' then "\\r"
      else String.singleton c)) ++
    "\""

/-- Indentation used by `JSON.stringify(·, null, 4)` at a nesting level. -/
def jsonIndent (level : Nat) : String :=
  String.join (List.replicate level "    ")

mutual

/-- Model of `JSON.stringify(value, null, 4)` at a nesting level. -/
def jsonStringifyAt : Nat → Json → String
  | _, .null => "null"
  | _, .bool b => if b then "true" else "false"
  | _, .num n => toString n
  | _, .str s => jsonQuote s
  | _, .arr [] => "[]"
  | level, .arr (e :: es) =>
    "[\n" ++ String.intercalate ",\n" (jsonStringifyItems (level + 1) (e :: es))
      ++ "\n" ++ jsonIndent level ++ "]"
  | _, .obj [] => "\x7b\x7d"
  | level, .obj (f :: fs) =>
    "\x7b\n" ++
      String.intercalate ",\n" (jsonStringifyFields (level + 1) (f :: fs)) ++
      "\n" ++ jsonIndent level ++ "\x7d"
termination_by structural _ j => j

/-- Array items of `jsonStringifyAt`, each on its own indented line. -/
def jsonStringifyItems : Nat → List Json → List String
  | _, [] => []
  | level, e :: es =>
    (jsonIndent level ++ jsonStringifyAt level e) :: jsonStringifyItems level es
termination_by structural _ l => l

/-- Object fields of `jsonStringifyAt`, each on its own indented line. -/
def jsonStringifyFields : Nat → List (String × Json) → List String
  | _, [] => []
  | level, (k, v) :: fs =>
    (jsonIndent level ++ jsonQuote k ++ ": " ++ jsonStringifyAt level v) ::
      jsonStringifyFields level fs
termination_by structural _ l => l

end

/-- Top-level `JSON.stringify(value, null, 4)`. -/
def jsonStringify (j : Json) : String := jsonStringifyAt 0 j

/-- Seed lookup of `DbGenerator.generate`:
`seedData?.[controller] || null`.  A missing seed table or missing key gives
`null`; a present entry — including an empty array, which is truthy in JS —
is passed through. -/
def jsIndexOrNull (seedData : Option (List (String × List Json)))
    (controller : String) : Option (List Json) :=
  match seedData with
  | none => none
  | some m => jsGet m controller

/-- Literal text of the seed branch of `generateDbFile` when seed
records are present. -/
def seedBranchA (controllerName : String) (seedData : List Json) : String :=
    "\n" ++
    "    const seedRecords = " ++
    (jsonStringify (Json.arr seedData)) ++
    ";\n" ++
    "    \n" ++
    "    await this.init();\n" ++
    "    \n" ++
    "    // Check if data already exists\n" ++
    "    const existingRecords = await this.findAll();\n" ++
    "    if (existingRecords.length > 0) \x7b\n" ++
    "      console.log(`" ++
    controllerName ++
    " database already contains data, skipping seed`);\n" ++
    "      return;\n" ++
    "    \x7d\n" ++
    "    \n" ++
    "    // Convert seed data to database records\n" ++
    "    const dbRecords = seedRecords.map(item => createDbRecord(item));\n" ++
    "    \n" ++
    "    // Import the seed data\n" ++
    "    await this.importAll(dbRecords);\n" ++
    "    \n" ++
    "    console.log(`Seeded " ++
    controllerName ++
    " database with $\x7bdbRecords.length\x7d records`);\n" ++
    "    "

/-- Literal text of the seed branch of `generateDbFile` when no seed
records are available. -/
def seedBranchB (controllerName : String) : String :=
    "\n" ++
    "    console.log(`No seed data provided for " ++
    controllerName ++
    "`);\n" ++
    "    "

/-- Seed conditional of the `generateDbFile` template:
`${seedData && seedData.length > 0 ? ... : ...}` — `null` and an empty
array both take the second branch (an empty array is truthy in JS but has
length 0). -/
def seedSplice (controllerName : String) (seedData : Option (List Json)) :
    String :=
  match seedData with
  | some l => if l.length > 0 then seedBranchA controllerName l
              else seedBranchB controllerName
  | none => seedBranchB controllerName

/-- Embedding of `DbGenerator.generateDbFile`: the generated
`<controller>-db.ts` file.  The `endpoints` and `parsedSwagger` arguments
are accepted (as in the source) but the template reads only the controller
name and the seed data. -/
def generateDbFile (controller : String)
    (endpoints : List SwaggerEndpoint) (parsedSwagger : ParsedSwagger)
    (seedData : Option (List Json)) : String :=
  let controllerName := toPascalCase controller
  let seedPart := seedSplice controllerName seedData
  "// Generated Database operations for " ++
    controllerName ++
    "\n" ++
    "import \x7b \n" ++
    "  dbManager, \n" ++
    "  DbRecord, \n" ++
    "  createDbRecord, \n" ++
    "  updateDbRecord, \n" ++
    "  queryByFilter, \n" ++
    "  sortRecords, \n" ++
    "  paginateRecords \n" ++
    "\x7d from './db-setup';\n" ++
    "\n" ++
    "export class " ++
    controller ++
    "Database \x7b\n" ++
    "  private readonly storeName = '" ++
    controller ++
    "';\n" ++
    "\n" ++
    "  async init(): Promise<void> \x7b\n" ++
    "    await dbManager.init();\n" ++
    "  \x7d\n" ++
    "\n" ++
    "  async findAll(params?: any): Promise<DbRecord[]> \x7b\n" ++
    "    await this.init();\n" ++
    "    \n" ++
    "    return new Promise((resolve, reject) => \x7b\n" ++
    "      const db = dbManager.getDatabase();\n" ++
    "      const transaction = db.transaction(this.storeName, 'readonly');\n" ++
    "      const store = transaction.objectStore(this.storeName);\n" ++
    "      const request = store.getAll();\n" ++
    "\n" ++
    "      request.onsuccess = () => \x7b\n" ++
    "        let records = request.result as DbRecord[];\n" ++
    "        \n" ++
    "        // Apply filtering\n" ++
    "        if (params) \x7b\n" ++
    "          if (params.filter) \x7b\n" ++
    "            records = queryByFilter(records, params.filter);\n" ++
    "          \x7d\n" ++
    "          \n" ++
    "          // Apply sorting\n" ++
    "          if (params.sortBy) \x7b\n" ++
    "            records = sortRecords(records, params.sortBy, params.sortOrder);\n" ++
    "          \x7d\n" ++
    "          \n" ++
    "          // Apply pagination\n" ++
    "          if (params.page || params.pageSize) \x7b\n" ++
    "            const paginated = paginateRecords(records, params.page, params.pageSize);\n" ++
    "            resolve(paginated.data);\n" ++
    "            return;\n" ++
    "          \x7d\n" ++
    "        \x7d\n" ++
    "        \n" ++
    "        resolve(records);\n" ++
    "      \x7d;\n" ++
    "\n" ++
    "      request.onerror = () => \x7b\n" ++
    "        reject(new Error(`Failed to fetch " ++
    controller ++
    " records: $\x7brequest.error\x7d`));\n" ++
    "      \x7d;\n" ++
    "    \x7d);\n" ++
    "  \x7d\n" ++
    "\n" ++
    "  async findById(id: string): Promise<DbRecord | null> \x7b\n" ++
    "    await this.init();\n" ++
    "    \n" ++
    "    return new Promise((resolve, reject) => \x7b\n" ++
    "      const db = dbManager.getDatabase();\n" ++
    "      const transaction = db.transaction(this.storeName, 'readonly');\n" ++
    "      const store = transaction.objectStore(this.storeName);\n" ++
    "      const request = store.get(id);\n" ++
    "\n" ++
    "      request.onsuccess = () => \x7b\n" ++
    "        const record = request.result as DbRecord | undefined;\n" ++
    "        if (!record) \x7b\n" ++
    "          const error = new Error(`" ++
    controllerName ++
    " with id '$\x7bid\x7d' not found`);\n" ++
    "          (error as any).status = 404;\n" ++
    "          reject(error);\n" ++
    "          return;\n" ++
    "        \x7d\n" ++
    "        resolve(record);\n" ++
    "      \x7d;\n" ++
    "\n" ++
    "      request.onerror = () => \x7b\n" ++
    "        reject(new Error(`Failed to fetch " ++
    controller ++
    " by id: $\x7brequest.error\x7d`));\n" ++
    "      \x7d;\n" ++
    "    \x7d);\n" ++
    "  \x7d\n" ++
    "\n" ++
    "  async create(data: any): Promise<DbRecord> \x7b\n" ++
    "    await this.init();\n" ++
    "    \n" ++
    "    const record = createDbRecord(data);\n" ++
    "    \n" ++
    "    return new Promise((resolve, reject) => \x7b\n" ++
    "      const db = dbManager.getDatabase();\n" ++
    "      const transaction = db.transaction(this.storeName, 'readwrite');\n" ++
    "      const store = transaction.objectStore(this.storeName);\n" ++
    "      const request = store.add(record);\n" ++
    "\n" ++
    "      request.onsuccess = () => \x7b\n" ++
    "        resolve(record);\n" ++
    "      \x7d;\n" ++
    "\n" ++
    "      request.onerror = () => \x7b\n" ++
    "        reject(new Error(`Failed to create " ++
    controller ++
    " record: $\x7brequest.error\x7d`));\n" ++
    "      \x7d;\n" ++
    "    \x7d);\n" ++
    "  \x7d\n" ++
    "\n" ++
    "  async update(id: string, updates: any): Promise<DbRecord> \x7b\n" ++
    "    await this.init();\n" ++
    "    \n" ++
    "    // First, fetch the existing record\n" ++
    "    const existingRecord = await this.findById(id);\n" ++
    "    \n" ++
    "    if (!existingRecord) \x7b\n" ++
    "      const error = new Error(`" ++
    controllerName ++
    " with id '$\x7bid\x7d' not found`);\n" ++
    "      (error as any).status = 404;\n" ++
    "      return Promise.reject(error);\n" ++
    "    \x7d\n" ++
    "    \n" ++
    "    const updatedRecord = updateDbRecord(existingRecord, updates);\n" ++
    "    \n" ++
    "    return new Promise((resolve, reject) => \x7b\n" ++
    "      const db = dbManager.getDatabase();\n" ++
    "      const transaction = db.transaction(this.storeName, 'readwrite');\n" ++
    "      const store = transaction.objectStore(this.storeName);\n" ++
    "      const request = store.put(updatedRecord);\n" ++
    "\n" ++
    "      request.onsuccess = () => \x7b\n" ++
    "        resolve(updatedRecord);\n" ++
    "      \x7d;\n" ++
    "\n" ++
    "      request.onerror = () => \x7b\n" ++
    "        reject(new Error(`Failed to update " ++
    controller ++
    " record: $\x7brequest.error\x7d`));\n" ++
    "      \x7d;\n" ++
    "    \x7d);\n" ++
    "  \x7d\n" ++
    "\n" ++
    "  async delete(id: string): Promise<void> \x7b\n" ++
    "    await this.init();\n" ++
    "    \n" ++
    "    // First, check if record exists\n" ++
    "    await this.findById(id);\n" ++
    "    \n" ++
    "    return new Promise((resolve, reject) => \x7b\n" ++
    "      const db = dbManager.getDatabase();\n" ++
    "      const transaction = db.transaction(this.storeName, 'readwrite');\n" ++
    "      const store = transaction.objectStore(this.storeName);\n" ++
    "      const request = store.delete(id);\n" ++
    "\n" ++
    "      request.onsuccess = () => \x7b\n" ++
    "        resolve();\n" ++
    "      \x7d;\n" ++
    "\n" ++
    "      request.onerror = () => \x7b\n" ++
    "        reject(new Error(`Failed to delete " ++
    controller ++
    " record: $\x7brequest.error\x7d`));\n" ++
    "      \x7d;\n" ++
    "    \x7d);\n" ++
    "  \x7d\n" ++
    "\n" ++
    "  async clearAll(): Promise<void> \x7b\n" ++
    "    await this.init();\n" ++
    "    \n" ++
    "    return new Promise((resolve, reject) => \x7b\n" ++
    "      const db = dbManager.getDatabase();\n" ++
    "      const transaction = db.transaction(this.storeName, 'readwrite');\n" ++
    "      const store = transaction.objectStore(this.storeName);\n" ++
    "      const request = store.clear();\n" ++
    "\n" ++
    "      request.onsuccess = () => \x7b\n" ++
    "        resolve();\n" ++
    "      \x7d;\n" ++
    "\n" ++
    "      request.onerror = () => \x7b\n" ++
    "        reject(new Error(`Failed to clear " ++
    controller ++
    " records: $\x7brequest.error\x7d`));\n" ++
    "      \x7d;\n" ++
    "    \x7d);\n" ++
    "  \x7d\n" ++
    "\n" ++
    "  async getStats(): Promise<\x7b totalRecords: number; lastUpdated: Date \x7d> \x7b\n" ++
    "    await this.init();\n" ++
    "    \n" ++
    "    return new Promise((resolve, reject) => \x7b\n" ++
    "      const db = dbManager.getDatabase();\n" ++
    "      const transaction = db.transaction(this.storeName, 'readonly');\n" ++
    "      const store = transaction.objectStore(this.storeName);\n" ++
    "      const countRequest = store.count();\n" ++
    "\n" ++
    "      countRequest.onsuccess = () => \x7b\n" ++
    "        const totalRecords = countRequest.result;\n" ++
    "        \n" ++
    "        // Get the most recent record to determine last updated\n" ++
    "        const getAllRequest = store.getAll();\n" ++
    "        getAllRequest.onsuccess = () => \x7b\n" ++
    "          const records = getAllRequest.result as DbRecord[];\n" ++
    "          const lastUpdated = records.length > 0 \n" ++
    "            ? new Date(Math.max(...records.map(r => r.updatedAt.getTime())))\n" ++
    "            : new Date();\n" ++
    "          \n" ++
    "          resolve(\x7b totalRecords, lastUpdated \x7d);\n" ++
    "        \x7d;\n" ++
    "        \n" ++
    "        getAllRequest.onerror = () => \x7b\n" ++
    "          reject(new Error(`Failed to get " ++
    controller ++
    " stats: $\x7bgetAllRequest.error\x7d`));\n" ++
    "        \x7d;\n" ++
    "      \x7d;\n" ++
    "\n" ++
    "      countRequest.onerror = () => \x7b\n" ++
    "        reject(new Error(`Failed to count " ++
    controller ++
    " records: $\x7bcountRequest.error\x7d`));\n" ++
    "      \x7d;\n" ++
    "    \x7d);\n" ++
    "  \x7d\n" ++
    "\n" ++
    "  async exportAll(): Promise<DbRecord[]> \x7b\n" ++
    "    return this.findAll();\n" ++
    "  \x7d\n" ++
    "\n" ++
    "  async importAll(data: DbRecord[]): Promise<void> \x7b\n" ++
    "    await this.init();\n" ++
    "    \n" ++
    "    return new Promise((resolve, reject) => \x7b\n" ++
    "      const db = dbManager.getDatabase();\n" ++
    "      const transaction = db.transaction(this.storeName, 'readwrite');\n" ++
    "      const store = transaction.objectStore(this.storeName);\n" ++
    "      \n" ++
    "      // Clear existing data first\n" ++
    "      const clearRequest = store.clear();\n" ++
    "      clearRequest.onsuccess = () => \x7b\n" ++
    "        // Import new data\n" ++
    "        const promises = data.map(record => \x7b\n" ++
    "          return new Promise<void>((res, rej) => \x7b\n" ++
    "            const addRequest = store.add(record);\n" ++
    "            addRequest.onsuccess = () => res();\n" ++
    "            addRequest.onerror = () => rej(addRequest.error);\n" ++
    "          \x7d);\n" ++
    "        \x7d);\n" ++
    "        \n" ++
    "        Promise.all(promises).then(() => resolve()).catch(reject);\n" ++
    "      \x7d;\n" ++
    "      \n" ++
    "      clearRequest.onerror = () => \x7b\n" ++
    "        reject(new Error(`Failed to clear " ++
    controller ++
    " records for import: $\x7bclearRequest.error\x7d`));\n" ++
    "      \x7d;\n" ++
    "    \x7d);\n" ++
    "  \x7d\n" ++
    "\n" ++
    "  /**\n" ++
    "   * Seed the database with initial data\n" ++
    "   */\n" ++
    "  async seedData(): Promise<void> \x7b\n" ++
    "    " ++
    seedPart ++
    "\n" ++
    "  \x7d\n" ++
    "\x7d\n"

/-- Embedding of `DbGenerator.generateDbSetup`: the generated
`db-setup.ts` file; the only dynamic part is the object-store name list. -/
def generateDbSetup (parsedSwagger : ParsedSwagger) : String :=
  let storesSplice := String.intercalate ",\n      "
    ((getUniqueControllers parsedSwagger).map (fun c => "'" ++ c ++ "'"))
  "// Generated IndexedDB Setup\n" ++
    "import \x7b defaultConfig \x7d from '../config/api-config';\n" ++
    "\n" ++
    "export interface DbRecord \x7b\n" ++
    "  id: string;\n" ++
    "  createdAt: Date;\n" ++
    "  updatedAt: Date;\n" ++
    "  [key: string]: any;\n" ++
    "\x7d\n" ++
    "\n" ++
    "export class DatabaseManager \x7b\n" ++
    "  private db: IDBDatabase | null = null;\n" ++
    "  private dbName: string;\n" ++
    "  private version: number = 1;\n" ++
    "\n" ++
    "  constructor(dbName: string = defaultConfig.dbName) \x7b\n" ++
    "    this.dbName = dbName;\n" ++
    "  \x7d\n" ++
    "\n" ++
    "  async init(): Promise<void> \x7b\n" ++
    "    if (this.db) \x7b\n" ++
    "      return;\n" ++
    "    \x7d\n" ++
    "\n" ++
    "    return new Promise((resolve, reject) => \x7b\n" ++
    "      const request = indexedDB.open(this.dbName, this.version);\n" ++
    "\n" ++
    "      request.onerror = () => \x7b\n" ++
    "        reject(new Error(`Failed to open database: $\x7brequest.error\x7d`));\n" ++
    "      \x7d;\n" ++
    "\n" ++
    "      request.onsuccess = () => \x7b\n" ++
    "        this.db = request.result;\n" ++
    "        resolve();\n" ++
    "      \x7d;\n" ++
    "\n" ++
    "      request.onupgradeneeded = (event) => \x7b\n" ++
    "        const db = (event.target as IDBOpenDBRequest).result;\n" ++
    "        this.createObjectStores(db);\n" ++
    "      \x7d;\n" ++
    "    \x7d);\n" ++
    "  \x7d\n" ++
    "\n" ++
    "  private createObjectStores(db: IDBDatabase): void \x7b\n" ++
    "    const storeNames = [\n" ++
    "      " ++
    storesSplice ++
    "\n" ++
    "    ];\n" ++
    "\n" ++
    "    storeNames.forEach(storeName => \x7b\n" ++
    "      if (!db.objectStoreNames.contains(storeName)) \x7b\n" ++
    "        const store = db.createObjectStore(storeName, \x7b keyPath: 'id' \x7d);\n" ++
    "        store.createIndex('createdAt', 'createdAt', \x7b unique: false \x7d);\n" ++
    "        store.createIndex('updatedAt', 'updatedAt', \x7b unique: false \x7d);\n" ++
    "      \x7d\n" ++
    "    \x7d);\n" ++
    "  \x7d\n" ++
    "\n" ++
    "  getDatabase(): IDBDatabase \x7b\n" ++
    "    if (!this.db) \x7b\n" ++
    "      throw new Error('Database not initialized. Call init() first.');\n" ++
    "    \x7d\n" ++
    "    return this.db;\n" ++
    "  \x7d\n" ++
    "\n" ++
    "  async close(): Promise<void> \x7b\n" ++
    "    if (this.db) \x7b\n" ++
    "      this.db.close();\n" ++
    "      this.db = null;\n" ++
    "    \x7d\n" ++
    "  \x7d\n" ++
    "\n" ++
    "  async clearDatabase(): Promise<void> \x7b\n" ++
    "    if (!this.db) \x7b\n" ++
    "      await this.init();\n" ++
    "    \x7d\n" ++
    "\n" ++
    "    const storeNames = Array.from(this.db!.objectStoreNames);\n" ++
    "    const transaction = this.db!.transaction(storeNames, 'readwrite');\n" ++
    "\n" ++
    "    const promises = storeNames.map(storeName => \x7b\n" ++
    "      return new Promise<void>((resolve, reject) => \x7b\n" ++
    "        const store = transaction.objectStore(storeName);\n" ++
    "        const request = store.clear();\n" ++
    "        \n" ++
    "        request.onsuccess = () => resolve();\n" ++
    "        request.onerror = () => reject(request.error);\n" ++
    "      \x7d);\n" ++
    "    \x7d);\n" ++
    "\n" ++
    "    await Promise.all(promises);\n" ++
    "  \x7d\n" ++
    "\x7d\n" ++
    "\n" ++
    "// Singleton instance\n" ++
    "export const dbManager = new DatabaseManager();\n" ++
    "\n" ++
    "// Utility functions\n" ++
    "export function generateId(): string \x7b\n" ++
    "  return Date.now().toString(36) + Math.random().toString(36).substr(2);\n" ++
    "\x7d\n" ++
    "\n" ++
    "export function createDbRecord<T extends object>(data: T): DbRecord & T \x7b\n" ++
    "  return \x7b\n" ++
    "    id: generateId(),\n" ++
    "    createdAt: new Date(),\n" ++
    "    updatedAt: new Date(),\n" ++
    "    ...data\n" ++
    "  \x7d;\n" ++
    "\x7d\n" ++
    "\n" ++
    "export function updateDbRecord<T extends DbRecord>(record: T, updates: Partial<T>): T \x7b\n" ++
    "  return \x7b\n" ++
    "    ...record,\n" ++
    "    ...updates,\n" ++
    "    updatedAt: new Date()\n" ++
    "  \x7d;\n" ++
    "\x7d\n" ++
    "\n" ++
    "export function queryByFilter<T extends DbRecord>(\n" ++
    "  records: T[],\n" ++
    "  filter: Record<string, any>\n" ++
    "): T[] \x7b\n" ++
    "  return records.filter(record => \x7b\n" ++
    "    return Object.entries(filter).every(([key, value]) => \x7b\n" ++
    "      if (value === undefined || value === null) return true;\n" ++
    "      return record[key] === value;\n" ++
    "    \x7d);\n" ++
    "  \x7d);\n" ++
    "\x7d\n" ++
    "\n" ++
    "export function sortRecords<T extends DbRecord>(\n" ++
    "  records: T[],\n" ++
    "  sortBy: string,\n" ++
    "  sortOrder: 'asc' | 'desc' = 'asc'\n" ++
    "): T[] \x7b\n" ++
    "  return [...records].sort((a, b) => \x7b\n" ++
    "    const aValue = a[sortBy];\n" ++
    "    const bValue = b[sortBy];\n" ++
    "    \n" ++
    "    if (aValue < bValue) return sortOrder === 'asc' ? -1 : 1;\n" ++
    "    if (aValue > bValue) return sortOrder === 'asc' ? 1 : -1;\n" ++
    "    return 0;\n" ++
    "  \x7d);\n" ++
    "\x7d\n" ++
    "\n" ++
    "export function paginateRecords<T extends DbRecord>(\n" ++
    "  records: T[],\n" ++
    "  page: number = 1,\n" ++
    "  pageSize: number = 10\n" ++
    "): \x7b data: T[]; total: number; page: number; pageSize: number; hasNext: boolean; hasPrevious: boolean \x7d \x7b\n" ++
    "  const startIndex = (page - 1) * pageSize;\n" ++
    "  const endIndex = startIndex + pageSize;\n" ++
    "  const data = records.slice(startIndex, endIndex);\n" ++
    "  \n" ++
    "  return \x7b\n" ++
    "    data,\n" ++
    "    total: records.length,\n" ++
    "    page,\n" ++
    "    pageSize,\n" ++
    "    hasNext: endIndex < records.length,\n" ++
    "    hasPrevious: page > 1\n" ++
    "  \x7d;\n" ++
    "\x7d\n"

/-- File outputs of `DbGenerator.generate`: the `db-setup.ts` file followed
by one `<controller>-db.ts` file per storage group, each generated with the
seed entry looked up by `seedData?.[controller] || null`. -/
def generateOutputs (parsedSwagger : ParsedSwagger)
    (seedData : Option (List (String × List Json))) :
    List (String × String) :=
  ("db-setup.ts", generateDbSetup parsedSwagger) ::
    (groupEndpointsByController parsedSwagger.endpoints).map
      (fun g => (g.1 ++ "-db.ts",
        generateDbFile g.1 g.2 parsedSwagger (jsIndexOrNull seedData g.1)))

/-! Spec-side definitions.  The definitions in this section are written from
the wording of the specification (not from the source code); they exist
only to be compared against the source-derived definitions above. -/

/-- Spec wording (§4.3 CRUD table, C1): the trailing segment of the path is
a `{param}` path-parameter placeholder. -/
def specTrailingSegmentIsParam (path : String) : Bool :=
  match ((jsSplit '/' path).filter (fun s => s ≠ "")).getLast? with
  | some s => jsStartsWith s "\x7b" && jsEndsWith s "\x7d"
  | none => false

/-- Spec wording (§3 IR, C4): operations in document traversal order —
paths in declaration order and, within one path, verbs in the order they
are declared in the document. -/
def specDocumentOrder (paths : RawPaths) : List SwaggerEndpoint :=
  paths.flatMap (fun p =>
    match p.2 with
    | none => []
    | some item => item.map (fun q => parseOperation p.1 q.1 q.2))

/-- Spec wording (C5): the numeric value denoted by a decimal status-code
string, stated through `Nat.ofDigits` (least-significant digit first, hence
the `reverse`). -/
def specNumericValue (s : String) : Int :=
  ((Nat.ofDigits 10 ((s.data.map (fun c => c.toNat - 48)).reverse)) : Nat)

/-- Spec wording (§4.3, C5): the success status is the numeric value of the
first declared response whose status-code string begins with `2`; with no
such response the default is 201 for POST, 204 for DELETE and 200
otherwise. -/
def specSuccessStatus (endpoint : SwaggerEndpoint) : Int :=
  match endpoint.responses.filter (fun r => jsStartsWith r.statusCode "2") with
  | r :: _ => specNumericValue r.statusCode
  | [] =>
    if endpoint.method = "POST" then 201
    else if endpoint.method = "DELETE" then 204
    else 200

/-! Concrete test inputs used by counterexamples and witnesses. -/

/-- Builder for a concrete endpoint (test inputs). -/
def testEndpoint (path method operationId : String)
    (tags : Option (List String)) (responses : List Response) :
    SwaggerEndpoint :=
  { path := path
    method := method
    operationId := operationId
    summary := none
    description := none
    parameters := []
    requestBody := none
    responses := responses
    tags := tags }

/-- Builder for a concrete response with no content (test inputs). -/
def testResponse (statusCode : String) : Response :=
  { statusCode := statusCode, description := "", content := none }

/-- Raw operation with every optional field absent (test inputs). -/
def rawOpMinimal : RawOperation :=
  { operationId := none
    summary := none
    description := none
    parameters := none
    requestBody := none
    responses := none
    tags := none }

/-! Shared lemmas. -/

/-- Appending to a non-empty string yields a non-empty string. -/
lemma append_ne_empty (a b : String) (h : a ≠ "") : a ++ b ≠ "" := by
  cases a with | mk la =>
  cases b with | mk lb =>
  intro hc
  apply h
  have hdata : la ++ lb = ([] : List Char) := congrArg String.data hc
  have hla : la = [] := by
    cases la with
    | nil => rfl
    | cons c cs => simp at hdata
  rw [hla]

/-! Claim C1. -/

/-- Claim C1, counterexample: for the GET operation on
`/users/{id}/posts` the trailing path segment `posts` is not a path
parameter, yet the classified database operation is `findById` (the source
tests `endpoint.path.includes('{')`, which is true because of the
non-trailing `{id}` segment), where the claim requires `findAll`. -/
theorem c1_trailing_param_counterexample :
    generateDbFunctionName
        (testEndpoint "/users/\x7bid\x7d/posts" "GET" "getUserPosts" none []) =
      "findById" ∧
    specTrailingSegmentIsParam "/users/\x7bid\x7d/posts" = false ∧
    ("findById" : String) ≠ "findAll" := by
  refine ⟨by decide, by decide, by decide⟩

/-- Claim C1, amended: for every operation with verb GET, the classified
database operation is `findById` if and only if the operation's path
contains a `{` character anywhere (i.e. contains a path-parameter
placeholder in any position, not only a trailing one), and `findAll`
otherwise. -/
theorem c1_get_intent_amended (e : SwaggerEndpoint)
    (h : jsToLower e.method = "get") :
    (generateDbFunctionName e = "findById" ↔
      e.path.data.contains (Char.ofNat 123) = true) ∧
    (generateDbFunctionName e = "findAll" ↔
      e.path.data.contains (Char.ofNat 123) = false) := by
  unfold generateDbFunctionName
  rw [h]
  cases hc : e.path.data.contains (Char.ofNat 123) <;> simp [hc]

/-- Claim C1, witness: the amended statement applied to the concrete
operation `GET /pets/{petId}`. -/
theorem c1_get_intent_amended_witness :
    jsToLower (testEndpoint "/pets/\x7bpetId\x7d" "GET" "getPetById" none
        []).method = "get" ∧
    ((generateDbFunctionName (testEndpoint "/pets/\x7bpetId\x7d" "GET"
        "getPetById" none []) = "findById" ↔
      (testEndpoint "/pets/\x7bpetId\x7d" "GET" "getPetById" none
        []).path.data.contains (Char.ofNat 123) = true) ∧
    (generateDbFunctionName (testEndpoint "/pets/\x7bpetId\x7d" "GET"
        "getPetById" none []) = "findAll" ↔
      (testEndpoint "/pets/\x7bpetId\x7d" "GET" "getPetById" none
        []).path.data.contains (Char.ofNat 123) = false)) :=
  ⟨by decide, c1_get_intent_amended _ (by decide)⟩

/-! Claim C2. -/

/-- Claim C2, counterexample: for `GET /users/profiles` with no declared
operation identifier, the normalizer synthesizes the identifier
`getusersprofiles` (verb + path stripped of non-alphanumerics), which is
truthy, so the generator camel-cases it and emits `getusersprofiles` — not
the claimed `getProfiles`. -/
theorem c2_missing_id_counterexample :
    generateFunctionName (parseOperation "/users/profiles" "get"
        rawOpMinimal) = "getusersprofiles" ∧
    ("getusersprofiles" : String) ≠ "getProfiles" := by
  refine ⟨by decide, by decide⟩

/-- Claim C2, amended: for every operation with no declared identifier the
normalizer synthesizes `operationId` as the verb concatenated with the path
stripped of all non-alphanumeric characters, and the emitted function name
is the camel form of that synthesized identifier; the verb + Pascal-cased
last non-parameter segment rule (giving `getProfiles` for
`GET /users/profiles`) applies only to an endpoint whose `operationId`
field is the empty string, which the normalizer never produces. -/
theorem c2_function_name_amended :
    (∀ (path method : String) (op : RawOperation),
      op.operationId = none → method ≠ "" →
      generateFunctionName (parseOperation path method op) =
        toCamelCase (synthOperationId method path)) ∧
    generateFunctionName (testEndpoint "/users/profiles" "GET" "" none []) =
      "getProfiles" := by
  constructor
  · intro path method op hid hm
    have hne : synthOperationId method path ≠ "" :=
      append_ne_empty _ _ hm
    simp only [generateFunctionName, parseOperation, hid]
    rw [if_pos hne]
  · decide

/-- Claim C2, witness: the general part applied to `GET /users/profiles`
with no declared identifier. -/
theorem c2_function_name_amended_witness :
    rawOpMinimal.operationId = none ∧ ("get" : String) ≠ "" ∧
    generateFunctionName (parseOperation "/users/profiles" "get"
        rawOpMinimal) =
      toCamelCase (synthOperationId "get" "/users/profiles") :=
  ⟨rfl, by decide,
    c2_function_name_amended.1 "/users/profiles" "get" rawOpMinimal rfl
      (by decide)⟩

/-! Claim C3. -/

/-- Claim C3, counterexample: a reference to the name `Missing`, absent
from every named-schema table, resolves to the bare named-type reference
`Missing` — not to the universal `any` type.  (The resolver
`generateTypeFromSchema` takes no schema table at all: it renders the
Pascal-cased last segment of the `$ref` string without any lookup.) -/
theorem c3_unresolvable_ref_counterexample :
    generateTypeFromSchema (refSchema "#/components/schemas/Missing") =
      "Missing" ∧
    ("Missing" : String) ≠ "any" := by
  refine ⟨by decide, by decide⟩

/-- Claim C3, amended: a reference node with a truthy `$ref` — resolvable
or not — resolves to the Pascal-cased last `/`-segment of the reference
string, with no consultation of the named-schema table and no failure;
resolution is a total function, so generation always completes. -/
theorem c3_unresolvable_ref_amended (s : Schema) (r : String)
    (href : s.ref = some r) (hne : r ≠ "") :
    generateTypeFromSchema s = toPascalCase (refTargetName r) := by
  cases s with
  | mk ty fmt props items req enumVals ex d ref =>
    have hr : ref = some r := href
    subst hr
    rw [generateTypeFromSchema.eq_def]
    simp [jsTruthyStr, hne]

/-- Claim C3, witness: the amended statement applied to a reference to the
absent name `Missing`. -/
theorem c3_unresolvable_ref_amended_witness :
    (refSchema "#/components/schemas/Missing").ref =
      some "#/components/schemas/Missing" ∧
    ("#/components/schemas/Missing" : String) ≠ "" ∧
    generateTypeFromSchema (refSchema "#/components/schemas/Missing") =
      toPascalCase (refTargetName "#/components/schemas/Missing") :=
  ⟨rfl, by decide,
    c3_unresolvable_ref_amended _ _ rfl (by decide)⟩

/-! Claim C6. -/

/-- Named schema `A` whose property `b` references `B` (test input). -/
def schemaA : Schema := objSchema [("b", refSchema "#/components/schemas/B")] none

/-- Named schema `B` whose property `a` references `A` (test input). -/
def schemaB : Schema := objSchema [("a", refSchema "#/components/schemas/A")] none

/-- Claim C6, confirmed: resolution terminates on every schema node —
`generateTypeFromSchema` and `generateInterface` are total functions
(accepted by well-founded recursion on the finite schema tree), and
reference nodes are returned as bare names without expansion — so the
mutually referencing pair `A`↔`B` resolves: the interface for `B` renders
its reference back to `A` as the bare named-type reference `A`, not as an
infinite structural expansion. -/
theorem c6_cycle_safety :
    generateInterface "A" schemaA = "export interface A \x7b\n  b?: B;\n\x7d" ∧
    generateInterface "B" schemaB = "export interface B \x7b\n  a?: A;\n\x7d" ∧
    generateTypeFromSchema (refSchema "#/components/schemas/A") = "A" := by
  refine ⟨by decide, by decide, by decide⟩

/-! Claim C8. -/

/-- Claim C8, confirmed: the canonicalization `toPascalCase` (whose body is
textually identical in `TypeGenerator`, `ApiGenerator` and `DbGenerator`)
maps the schema name `user-profile` and the lower-cased storage-group key
of the route tag `user_profile` to the identical emitted identifier
`UserProfile`; the emitted interface header for the schema and the
Pascal-cased storage-group identifier agree. -/
theorem c8_canonicalization_consistency :
    toPascalCase "user-profile" = "UserProfile" ∧
    toPascalCase (controllerKeyOf
        (testEndpoint "/x" "GET" "x" (some ["user_profile"]) [])) =
      "UserProfile" ∧
    generateInterface "user-profile" (objSchema [] none) =
      "export interface UserProfile \x7b\n\x7d" := by
  refine ⟨by decide, by decide, by decide⟩

/-! Claim C4. -/

/-- Raw document whose only path declares its verbs in the order
`post`, `get` (test input). -/
def outOfOrderDoc : RawPaths :=
  [("/pets", some [("post", rawOpMinimal), ("get", rawOpMinimal)])]

/-- Claim C4, counterexample: a document declaring `post` before `get`
under one path is parsed into endpoints ordered `GET`, `POST` — the fixed
verb order of the parser — while document traversal order would give
`POST`, `GET`. -/
theorem c4_verb_order_counterexample :
    (parseEndpoints outOfOrderDoc).map (fun e => e.method) = ["GET", "POST"] ∧
    (specDocumentOrder outOfOrderDoc).map (fun e => e.method) =
      ["POST", "GET"] ∧
    (parseEndpoints outOfOrderDoc).map (fun e => e.method) ≠
      (specDocumentOrder outOfOrderDoc).map (fun e => e.method) := by
  refine ⟨by decide, by decide, by decide⟩

/-- Verb loop of `parseEndpoints` for one path item, characterized as a
`filterMap` over the iterated verb list. -/
lemma parseEndpoints_inner (path : String)
    (item : List (String × RawOperation)) :
    ∀ (ms : List String) (acc : List SwaggerEndpoint),
      List.foldl (fun acc2 method =>
          match jsGet item method with
          | some operation => acc2 ++ [parseOperation path method operation]
          | none => acc2) acc ms =
        acc ++ ms.filterMap
          (fun m => (jsGet item m).map (parseOperation path m)) := by
  intro ms
  induction ms with
  | nil => intro acc; simp
  | cons m ms ih =>
    intro acc
    simp only [List.foldl_cons]
    cases h : jsGet item m with
    | none => simp [h, ih]
    | some op => simp [h, ih]

/-- Path loop of `parseEndpoints`, characterized as a `flatMap` over the
path list in declaration order. -/
lemma parseEndpoints_outer :
    ∀ (paths : RawPaths) (acc : List SwaggerEndpoint),
      List.foldl
        (fun acc p =>
          match p.2 with
          | none => acc
          | some pathItem =>
            List.foldl
              (fun acc2 method =>
                match jsGet pathItem method with
                | some operation =>
                  acc2 ++ [parseOperation p.1 method operation]
                | none => acc2)
              acc httpMethods)
        acc paths =
      acc ++ paths.flatMap (fun p =>
        match p.2 with
        | none => []
        | some item =>
          httpMethods.filterMap
            (fun m => (jsGet item m).map (parseOperation p.1 m))) := by
  intro paths
  induction paths with
  | nil => intro acc; simp
  | cons p ps ih =>
    intro acc
    simp only [List.foldl_cons, List.flatMap_cons]
    cases hp : p.2 with
    | none => simp only [hp]; rw [ih]; simp
    | some item =>
      simp only [hp]
      rw [parseEndpoints_inner, ih]
      simp

/-- Claim C4, amended: the IR's operation list follows the paths in their
declaration order, but within each path the verbs are emitted in the fixed
order `get, post, put, patch, delete, options, head` (filtered to those
present), not in their declaration order. -/
theorem c4_traversal_order_amended (paths : RawPaths) :
    parseEndpoints paths =
      paths.flatMap (fun p =>
        match p.2 with
        | none => []
        | some item =>
          httpMethods.filterMap
            (fun m => (jsGet item m).map (parseOperation p.1 m))) := by
  unfold parseEndpoints
  rw [parseEndpoints_outer]
  simp

/-! Claim C5. -/

/-- First match of a predicate is the head of the filtered list. -/
lemma find?_eq_head?_filter {α : Type} (p : α → Bool) :
    ∀ l : List α, l.find? p = (l.filter p).head? := by
  intro l
  induction l with
  | nil => rfl
  | cons x xs ih =>
    by_cases h : p x
    · rw [List.find?_cons_of_pos _ h, List.filter_cons_of_pos h,
        List.head?_cons]
    · rw [List.find?_cons_of_neg _ h, List.filter_cons_of_neg h, ih]

/-- The left-fold base-10 accumulation agrees with `Nat.ofDigits` on the
reversed digit list. -/
lemma digitsVal_eq_ofDigits (l : List Char) :
    digitsVal l =
      Nat.ofDigits 10 ((l.map (fun c => c.toNat - 48)).reverse) := by
  induction l using List.reverseRecOn with
  | nil => simp [digitsVal]
  | append_singleton xs c ih =>
    simp only [digitsVal, List.foldl_append, List.foldl_cons, List.foldl_nil,
      List.map_append, List.reverse_append, List.map_cons, List.map_nil,
      List.reverse_cons, List.reverse_nil, List.nil_append, List.cons_append,
      Nat.ofDigits_cons]
    rw [show List.foldl (fun acc c => acc * 10 + (c.toNat - 48)) 0 xs
        = digitsVal xs from rfl, ih]
    ring

/-- On a non-empty all-digit string, `parseInt(s, 10)` yields the numeric
value of the string. -/
lemma jsParseIntDec_eq_specNumericValue (s : String)
    (hd : s.data.all Char.isDigit) (hne : s.data ≠ []) :
    jsParseIntDec s = specNumericValue s := by
  unfold jsParseIntDec specNumericValue
  have ht : s.data.takeWhile Char.isDigit = s.data :=
    List.takeWhile_eq_self_iff.mpr (fun c hc => List.all_eq_true.mp hd c hc)
  rw [ht]
  cases hs : s.data with
  | nil => exact absurd hs hne
  | cons c cs =>
    simp only []
    rw [← hs, digitsVal_eq_ofDigits]

/-- A string with prefix `2` has a non-empty character list. -/
lemma ne_nil_of_jsStartsWith (s p : String) (hp : p.data ≠ [])
    (h : jsStartsWith s p = true) : s.data ≠ [] := by
  intro hs
  unfold jsStartsWith at h
  rw [hs] at h
  cases hd : p.data with
  | nil => exact hp hd
  | cons c cs => rw [hd] at h; simp [List.isPrefixOf] at h

/-- Claim C5, confirmed: for every operation whose verb is one of the seven
recognized upper-cased verbs (as the normalizer emits them) and whose
declared response codes beginning with `2` are decimal digit strings —
non-`2xx` codes such as `default` or `404` are unconstrained — the emitted
success status code is the numeric value of the first response whose status
code begins with `2`, and with no such response the verb defaults apply
(POST → 201, DELETE → 204, others → 200). -/
theorem c5_success_status (e : SwaggerEndpoint)
    (hm : e.method ∈ ["GET", "POST", "PUT", "PATCH", "DELETE", "OPTIONS",
      "HEAD"])
    (hd : ∀ r ∈ e.responses, jsStartsWith r.statusCode "2" = true →
      r.statusCode.data.all Char.isDigit) :
    getSuccessStatusCode e = specSuccessStatus e := by
  unfold getSuccessStatusCode specSuccessStatus
  rw [find?_eq_head?_filter]
  cases hf : e.responses.filter (fun r => jsStartsWith r.statusCode "2") with
  | cons r rest =>
    simp only [List.head?_cons]
    have hr : r ∈ e.responses ∧ jsStartsWith r.statusCode "2" = true :=
      List.mem_filter.mp (hf ▸ List.mem_cons_self r rest)
    exact jsParseIntDec_eq_specNumericValue _ (hd r hr.1 hr.2)
      (ne_nil_of_jsStartsWith _ _ (by decide) hr.2)
  | nil =>
    simp only [List.head?_nil]
    simp only [List.mem_cons, List.not_mem_nil, or_false] at hm
    rcases hm with h | h | h | h | h | h | h <;> rw [h] <;> decide

/-- Claim C5, witness: the confirmed statement applied to a POST operation
declaring responses `404`, `201` and `default` (as in the repository's Pet
Store fixture; chosen code 201) — together with the evaluation of both
sides. -/
theorem c5_success_status_witness :
    (testEndpoint "/pets" "POST" "createPet" none
        [testResponse "404", testResponse "201",
          testResponse "default"]).method ∈
      ["GET", "POST", "PUT", "PATCH", "DELETE", "OPTIONS", "HEAD"] ∧
    (∀ r ∈ (testEndpoint "/pets" "POST" "createPet" none
        [testResponse "404", testResponse "201",
          testResponse "default"]).responses,
      jsStartsWith r.statusCode "2" = true →
        r.statusCode.data.all Char.isDigit) ∧
    getSuccessStatusCode (testEndpoint "/pets" "POST" "createPet" none
        [testResponse "404", testResponse "201", testResponse "default"]) =
      specSuccessStatus (testEndpoint "/pets" "POST" "createPet" none
        [testResponse "404", testResponse "201", testResponse "default"]) ∧
    getSuccessStatusCode (testEndpoint "/pets" "POST" "createPet" none
        [testResponse "404", testResponse "201", testResponse "default"]) =
      201 :=
  ⟨by decide, by decide,
    c5_success_status _ (by decide) (by decide),
    by decide⟩

/-! Claim C7. -/

/-- Claim C7, confirmed: a property line of a generated interface carries
the optionality marker `?` if and only if the property name does not occur
in the schema node's `required` set; on the concrete schema
`{properties: {id, name}, required: [id]}` both the named-interface
emission and the inline-object emission render `id` non-optional and
`name` optional. -/
theorem c7_required_propagation :
    (∀ (req : Option (List String)) (n : String) (ps : Schema),
        ps.description = none →
        ((interfacePropLine req n ps =
            "  " ++ n ++ "?" ++ ": " ++ generateTypeFromSchema ps ++ ";\n") ↔
          requiredIncludes req n = false)) ∧
    generateInterface "User" (objSchema [("id", primSchema "string"),
        ("name", primSchema "string")] (some ["id"])) =
      "export interface User \x7b\n  id: string;\n  name?: string;\n\x7d" ∧
    generateTypeFromSchema (objSchema [("id", primSchema "string"),
        ("name", primSchema "string")] (some ["id"])) =
      "\x7b id: string; name?: string \x7d" := by
  refine ⟨?_, by decide, by decide⟩
  intro req n ps hdesc
  constructor
  · intro h
    cases hreq : requiredIncludes req n
    · rfl
    · exfalso
      simp only [interfacePropLine, hdesc, jsTruthyStr, hreq, reduceIte,
        Bool.false_eq_true, if_false] at h
      have hlen := congrArg String.length h
      simp only [String.length_append] at hlen
      have l0 : ("" : String).length = 0 := rfl
      have l2 : ("  " : String).length = 2 := rfl
      have lc : (": " : String).length = 2 := rfl
      have lq : ("?" : String).length = 1 := rfl
      have ls : (";\n" : String).length = 2 := rfl
      rw [l0, l2, lc, lq, ls] at hlen
      omega
  · intro h
    simp only [interfacePropLine, hdesc, jsTruthyStr, h, reduceIte,
      Bool.false_eq_true, if_false]
    have he : ∀ s : String, "" ++ s = s := fun s => by
      cases s with | mk l => rfl
    rw [he]

/-- Claim C7, witness: the optionality characterization applied to the
property `name` of the schema requiring only `id`. -/
theorem c7_required_propagation_witness :
    (primSchema "string").description = none ∧
    ((interfacePropLine (some ["id"]) "name" (primSchema "string") =
        "  " ++ "name" ++ "?" ++ ": " ++
          generateTypeFromSchema (primSchema "string") ++ ";\n") ↔
      requiredIncludes (some ["id"]) "name" = false) :=
  ⟨rfl, c7_required_propagation.1 (some ["id"]) "name" (primSchema "string")
    rfl⟩

/-! Claim C9. -/

/-- Property lookup on a record after inserting a binding for the looked-up
key. -/
lemma jsGet_cons_self {α : Type} (k : String) (v : α)
    (l : List (String × α)) : jsGet ((k, v) :: l) k = some v := by
  simp [jsGet, List.find?_cons]

/-- Property lookup on a record after inserting a binding for a different
key. -/
lemma jsGet_cons_ne {α : Type} (k k' : String) (v : α)
    (l : List (String × α)) (h : k' ≠ k) :
    jsGet ((k, v) :: l) k' = jsGet l k' := by
  simp [jsGet, List.find?_cons, Ne.symm h]

set_option maxRecDepth 16384 in
/-- The generated database file is identical for an absent seed entry
(`null`) and for an explicitly empty seed list. -/
lemma generateDbFile_none_eq_empty (c : String)
    (eps : List SwaggerEndpoint) (ps : ParsedSwagger) :
    generateDbFile c eps ps none = generateDbFile c eps ps (some []) := rfl

set_option maxRecDepth 16384 in
/-- Claim C9, confirmed: for every storage-group key absent from the seed
table, adding an explicitly empty seed list for that key leaves every
generated output file — `db-setup.ts` and each `<controller>-db.ts` —
unchanged: a missing seed entry and an empty one are indistinguishable. -/
theorem c9_missing_seed_eq_empty (ps : ParsedSwagger)
    (m : List (String × List Json)) (key : String)
    (hk : jsGet m key = none) :
    generateOutputs ps (some m) =
      generateOutputs ps (some ((key, []) :: m)) := by
  unfold generateOutputs
  refine congrArg (List.cons ("db-setup.ts", generateDbSetup ps)) ?_
  apply List.map_congr_left
  intro g _
  by_cases hc : g.1 = key
  · have h1 : jsIndexOrNull (some m) g.1 = none := by
      rw [hc]; exact hk
    have h2 : jsIndexOrNull (some ((key, []) :: m)) g.1 = some [] := by
      rw [hc]; exact jsGet_cons_self _ _ _
    rw [h1, h2, generateDbFile_none_eq_empty]
  · have h2 : jsIndexOrNull (some ((key, []) :: m)) g.1 =
        jsIndexOrNull (some m) g.1 := jsGet_cons_ne _ _ _ _ hc
    rw [h2]

/-- Claim C9, witness: the confirmed statement applied to a one-endpoint
document with an empty seed table and the key `pets`. -/
theorem c9_missing_seed_eq_empty_witness :
    jsGet ([] : List (String × List Json)) "pets" = none ∧
    generateOutputs
        ⟨"Pet Store", "1.0", none,
          [testEndpoint "/pets" "GET" "listPets" (some ["pets"]) []], []⟩
        (some []) =
      generateOutputs
        ⟨"Pet Store", "1.0", none,
          [testEndpoint "/pets" "GET" "listPets" (some ["pets"]) []], []⟩
        (some [("pets", [])]) :=
  ⟨rfl, c9_missing_seed_eq_empty _ [] "pets" rfl⟩

/-! Claim C10. -/

/-- Round-trip of `Char.ofNat` on the ASCII lower-case letter range. -/
lemma toNat_ofNat_lower (n : Nat) (h1 : 97 ≤ n) (h2 : n ≤ 122) :
    (Char.ofNat n).toNat = n := by
  interval_cases n <;> decide

/-- ASCII lower-casing is idempotent on characters. -/
lemma toLower_toLower (c : Char) : c.toLower.toLower = c.toLower := by
  by_cases h : c.toNat ≥ 65 ∧ c.toNat ≤ 90
  · have h1 : c.toLower = Char.ofNat (c.toNat + 32) := by
      simp [Char.toLower, h]
    have h2 : (Char.ofNat (c.toNat + 32)).toNat = c.toNat + 32 :=
      toNat_ofNat_lower _ (by omega) (by omega)
    rw [h1]
    simp only [Char.toLower, h2]
    rw [if_neg (by omega)]
  · simp [Char.toLower, h]

/-- `toLowerCase` is idempotent on strings. -/
lemma jsToLower_idem (s : String) : jsToLower (jsToLower s) = jsToLower s := by
  cases s with
  | mk l =>
    show String.mk ((l.map Char.toLower).map Char.toLower) =
      String.mk (l.map Char.toLower)
    rw [List.map_map]
    congr 1
    exact List.map_congr_left (fun c _ => toLower_toLower c)

/-- Looking up the key just pushed by `addToGroup` finds the old entry with
the endpoint appended (or a fresh one-element entry). -/
lemma jsGet_addToGroup_self (groups : List (String × List SwaggerEndpoint))
    (k : String) (e : SwaggerEndpoint) :
    jsGet (addToGroup groups k e) k =
      some (((jsGet groups k).getD []) ++ [e]) := by
  induction groups with
  | nil => simp [addToGroup, jsGet, List.find?_cons]
  | cons g rest ih =>
    obtain ⟨k', es⟩ := g
    by_cases h : k' = k
    · subst h
      simp [addToGroup, jsGet, List.find?_cons]
    · simp only [addToGroup, if_neg h]
      rw [show jsGet ((k', es) :: addToGroup rest k e) k =
            jsGet (addToGroup rest k e) k from
          jsGet_cons_ne _ _ _ _ (fun hh => h hh.symm),
        show jsGet ((k', es) :: rest) k = jsGet rest k from
          jsGet_cons_ne _ _ _ _ (fun hh => h hh.symm)]
      exact ih

/-- `addToGroup` leaves the entries of every other key unchanged. -/
lemma jsGet_addToGroup_ne (groups : List (String × List SwaggerEndpoint))
    (k k' : String) (e : SwaggerEndpoint) (h : k' ≠ k) :
    jsGet (addToGroup groups k e) k' = jsGet groups k' := by
  induction groups with
  | nil =>
    simp [addToGroup, jsGet, List.find?_cons, Ne.symm h]
  | cons g rest ih =>
    obtain ⟨k'', es⟩ := g
    by_cases hk : k'' = k
    · subst hk
      by_cases hk2 : k' = k''
      · exact absurd hk2 h
      · rw [show addToGroup ((k'', es) :: rest) k'' e =
              (k'', es ++ [e]) :: rest from by simp [addToGroup],
          jsGet_cons_ne _ _ _ _ hk2, jsGet_cons_ne _ _ _ _ hk2]
    · rw [show addToGroup ((k'', es) :: rest) k e =
            (k'', es) :: addToGroup rest k e from by simp [addToGroup, hk]]
      by_cases hk2 : k' = k''
      · subst hk2
        rw [jsGet_cons_self, jsGet_cons_self]
      · rw [jsGet_cons_ne _ _ _ _ hk2, jsGet_cons_ne _ _ _ _ hk2, ih]

/-- A successful record lookup produces an entry of the record. -/
lemma mem_of_jsGet_eq_some {α : Type} (l : List (String × α)) (k : String)
    (v : α) (h : jsGet l k = some v) : (k, v) ∈ l := by
  induction l with
  | nil => simp [jsGet] at h
  | cons g rest ih =>
    obtain ⟨k', v'⟩ := g
    by_cases hk : k' = k
    · subst hk
      rw [jsGet_cons_self] at h
      cases h
      exact List.mem_cons_self _ _
    · rw [jsGet_cons_ne _ _ _ _ (fun hh => hk hh.symm)] at h
      exact List.mem_cons_of_mem _ (ih h)

/-- Fold invariant of the grouping loop: an endpoint of the input (or one
already filed in the accumulator) ends up filed under its storage-group
key. -/
lemma groupFold_mem :
    ∀ (l : List SwaggerEndpoint) (acc : List (String × List SwaggerEndpoint))
      (e : SwaggerEndpoint),
      (e ∈ l ∨ ∃ es, jsGet acc (controllerKeyOf e) = some es ∧ e ∈ es) →
      ∃ es,
        jsGet (l.foldl (fun groups x => addToGroup groups (controllerKeyOf x) x)
            acc) (controllerKeyOf e) = some es ∧ e ∈ es := by
  intro l
  induction l with
  | nil =>
    intro acc e he
    rcases he with h | h
    · exact absurd h (List.not_mem_nil e)
    · exact h
  | cons x xs ih =>
    intro acc e he
    simp only [List.foldl_cons]
    apply ih
    rcases he with he | ⟨es, hget, hmem⟩
    · rcases List.mem_cons.mp he with rfl | hxs
      · right
        refine ⟨((jsGet acc (controllerKeyOf e)).getD []) ++ [e],
          jsGet_addToGroup_self _ _ _, List.mem_append_right _ ?_⟩
        exact List.mem_singleton_self e
      · left; exact hxs
    · right
      by_cases hk : controllerKeyOf e = controllerKeyOf x
      · refine ⟨es ++ [x], ?_, List.mem_append_left _ hmem⟩
        rw [hk, jsGet_addToGroup_self, ← hk, hget]
        rfl
      · exact ⟨es, by rw [jsGet_addToGroup_ne _ _ _ _ hk]; exact hget, hmem⟩

/-- Keys appearing after one `addToGroup` step: the pushed key or a key
already present. -/
lemma addToGroup_keys (groups : List (String × List SwaggerEndpoint))
    (k : String) (e : SwaggerEndpoint)
    (g : String × List SwaggerEndpoint) (hg : g ∈ addToGroup groups k e) :
    g.1 = k ∨ g.1 ∈ groups.map Prod.fst := by
  induction groups with
  | nil =>
    simp [addToGroup] at hg
    simp [hg]
  | cons g' rest ih =>
    obtain ⟨k', es⟩ := g'
    by_cases h : k' = k
    · subst h
      simp only [addToGroup, if_pos rfl] at hg
      rcases List.mem_cons.mp hg with rfl | hr
      · left; rfl
      · right
        exact List.mem_cons_of_mem _ (List.mem_map_of_mem Prod.fst hr)
    · simp only [addToGroup, if_neg h] at hg
      rcases List.mem_cons.mp hg with rfl | hr
      · right; exact List.mem_cons_self _ _
      · rcases ih hr with h1 | h1
        · left; exact h1
        · right; exact List.mem_cons_of_mem _ h1

/-- Fold invariant of the grouping loop for key shape: every key of the
produced record is a lower-cased first tag (or was already in the
accumulator). -/
lemma groupFold_keys :
    ∀ (l : List SwaggerEndpoint) (acc : List (String × List SwaggerEndpoint)),
      (∀ g ∈ acc, jsToLower g.1 = g.1) →
      ∀ g ∈ l.foldl (fun groups x => addToGroup groups (controllerKeyOf x) x)
          acc, jsToLower g.1 = g.1 := by
  intro l
  induction l with
  | nil => intro acc hacc g hg; exact hacc g hg
  | cons x xs ih =>
    intro acc hacc g hg
    simp only [List.foldl_cons] at hg
    refine ih _ ?_ g hg
    intro g' hg'
    rcases addToGroup_keys _ _ _ _ hg' with h | h
    · rw [h]
      exact jsToLower_idem (firstTagOf x)
    · rcases List.mem_map.mp h with ⟨g'', hg'', hfst⟩
      rw [← hfst]
      exact hacc g'' hg''

/-- Claim C10, confirmed: storage-group assignment is case-insensitive —
two endpoints whose first tags agree after lower-casing are filed into one
and the same group entry — and every storage-group key (grouping record
keys, which also name the generated `<controller>-db.ts` files, and the
object-store names from `getUniqueControllers`) is a fixed point of
lower-casing, i.e. fully lower-case. -/
theorem c10_case_insensitive_grouping :
    (∀ (l : List SwaggerEndpoint) (e1 e2 : SwaggerEndpoint),
        e1 ∈ l → e2 ∈ l →
        jsToLower (firstTagOf e1) = jsToLower (firstTagOf e2) →
        ∃ g ∈ groupEndpointsByController l, e1 ∈ g.2 ∧ e2 ∈ g.2) ∧
    (∀ (l : List SwaggerEndpoint) (g : String × List SwaggerEndpoint),
        g ∈ groupEndpointsByController l → jsToLower g.1 = g.1) ∧
    (∀ (ps : ParsedSwagger) (s : String),
        s ∈ getUniqueControllers ps → jsToLower s = s) := by
  refine ⟨?_, ?_, ?_⟩
  · intro l e1 e2 h1 h2 htag
    have hkey : controllerKeyOf e1 = controllerKeyOf e2 := htag
    obtain ⟨es1, hg1, hm1⟩ := groupFold_mem l [] e1 (Or.inl h1)
    obtain ⟨es2, hg2, hm2⟩ := groupFold_mem l [] e2 (Or.inl h2)
    rw [hkey] at hg1
    have hes : es1 = es2 := by
      have := hg1.symm.trans hg2
      exact (Option.some.injEq _ _ ▸ this).symm ▸ rfl
    subst hes
    exact ⟨(controllerKeyOf e2, es1),
      mem_of_jsGet_eq_some _ _ _ hg2, hm1, hm2⟩
  · intro l g hg
    exact groupFold_keys l [] (by intro g' hg'; simp at hg') g hg
  · intro ps s hs
    unfold getUniqueControllers at hs
    suffices hgen : ∀ (l : List SwaggerEndpoint) (acc : List String),
        (∀ t ∈ acc, jsToLower t = t) →
        ∀ t ∈ l.foldl (fun acc e =>
            let t := controllerKeyOf e
            if acc.contains t then acc else acc ++ [t]) acc,
          jsToLower t = t by
      exact hgen ps.endpoints [] (by intro t ht; simp at ht) s hs
    intro l
    induction l with
    | nil => intro acc hacc t ht; exact hacc t ht
    | cons x xs ih =>
      intro acc hacc t ht
      simp only [List.foldl_cons] at ht
      refine ih _ ?_ t ht
      intro t' ht'
      by_cases hc : acc.contains (controllerKeyOf x)
      · rw [if_pos hc] at ht'
        exact hacc t' ht'
      · rw [if_neg hc] at ht'
        rcases List.mem_append.mp ht' with h | h
        · exact hacc t' h
        · rw [List.mem_singleton.mp h]
          exact jsToLower_idem (firstTagOf x)

/-- Claim C10, witness: the confirmed statement applied to two endpoints
tagged `Pets` and `pets`, which land in one group. -/
theorem c10_case_insensitive_grouping_witness :
    (testEndpoint "/pets" "GET" "listPets" (some ["Pets"]) []) ∈
      [testEndpoint "/pets" "GET" "listPets" (some ["Pets"]) [],
        testEndpoint "/pets" "POST" "createPet" (some ["pets"]) []] ∧
    jsToLower (firstTagOf
        (testEndpoint "/pets" "GET" "listPets" (some ["Pets"]) [])) =
      jsToLower (firstTagOf
        (testEndpoint "/pets" "POST" "createPet" (some ["pets"]) [])) ∧
    ∃ g ∈ groupEndpointsByController
        [testEndpoint "/pets" "GET" "listPets" (some ["Pets"]) [],
          testEndpoint "/pets" "POST" "createPet" (some ["pets"]) []],
      (testEndpoint "/pets" "GET" "listPets" (some ["Pets"]) []) ∈ g.2 ∧
      (testEndpoint "/pets" "POST" "createPet" (some ["pets"]) []) ∈ g.2 :=
  ⟨List.mem_cons_self _ _, by decide,
    c10_case_insensitive_grouping.1 _ _ _
      (List.mem_cons_self _ _)
      (List.mem_cons_of_mem _ (List.mem_cons_self _ _))
      (by decide)⟩

end SwaggerToLocalDb
